import Mathlib

/-!
Verification development for the precepgo-agents-frontend repository.

The TypeScript sources are embedded shallowly:

* JavaScript runtime values are modelled by the inductive type `JVal`.
  Objects are association lists in insertion order where a later binding
  for a key overrides an earlier one (mirroring JS property assignment
  and spread); `lookupField` therefore returns the last binding.
* Firestore `Timestamp` values (which carry a `toDate` method) are the
  `JVal.tstamp` constructor; JS `Date` objects are `JVal.date`, carrying
  their time value as an integer (`getTime`).  `new Date(string)` parsing
  is abstracted by an explicit parameter `p : String → Int`; locale
  rendering (`toLocaleString`) is abstracted as decimal rendering of the
  time value.
* Fallible effects (fetch, response.json(), listener setup) are passed in
  as `Except` values; callbacks are modelled by returning the value that
  would be delivered to them.
-/

/-- Model of a JavaScript runtime value as used by the dashboard code:
`undefined`/`jnull` are `undefined`/`null`, `tstamp` is a Firestore
`Timestamp` (an object with a `toDate` method), `date` is a JS `Date`
with its integer time value, `obj` is an object as an insertion-ordered
binding list (later bindings override earlier ones). -/
inductive JVal where
  | undefined
  | jnull
  | bool (b : Bool)
  | num (n : Int)
  | str (s : String)
  | date (t : Int)
  | tstamp (t : Int)
  | arr (xs : List JVal)
  | obj (fields : List (String × JVal))

instance : Inhabited JVal := ⟨JVal.undefined⟩

/-- JavaScript truthiness: `undefined`, `null`, `false`, `0` and the empty
string are falsy; every object (including `Date` and `Timestamp`), every
array and every other primitive is truthy.  (`NaN` is outside the model:
time values are integers.) -/
def truthy : JVal → Bool
  | .undefined => false
  | .jnull => false
  | .bool b => b
  | .num n => n != 0
  | .str s => s != ""
  | .date _ => true
  | .tstamp _ => true
  | .arr _ => true
  | .obj _ => true

/-- JavaScript `a || b`: the left operand when it is truthy, otherwise the
right operand. -/
def jor (a b : JVal) : JVal := if truthy a then a else b

/-- JavaScript `x?.toDate?.()`: calling `toDate` through optional chaining
yields a `Date` for a Firestore `Timestamp` and `undefined` for every
value that has no `toDate` method (including `undefined`/`null`). -/
def toDateOpt : JVal → JVal
  | .tstamp t => .date t
  | _ => .undefined

/-- JavaScript `new Date(x)` for the values the embedded code feeds it:
a `Date` is copied, an integer is taken as a time value, a string is
parsed by the abstract parser `p`, a `Timestamp` keeps its time value.
Remaining (truthy) inputs would be `Invalid Date` in JS; they are mapped
to time 0, and the guarded call sites never reach them. -/
def newDate (p : String → Int) : JVal → JVal
  | .date t => .date t
  | .num n => .date n
  | .str s => .date (p s)
  | .tstamp t => .date t
  | _ => .date 0

/-- JavaScript `d.getTime()` on a `Date`; 0 on non-dates (unreached). -/
def getTime : JVal → Int
  | .date t => t
  | _ => 0

/-- Property lookup in an object binding list: the last binding for the
key wins (later assignments and spreads override earlier ones); a missing
key reads as `undefined`. -/
def lookupField (fields : List (String × JVal)) (k : String) : JVal :=
  match fields.reverse.find? (fun kv => kv.1 == k) with
  | some kv => kv.2
  | none => .undefined

/-- JavaScript member access `v.k`: field lookup on objects, `undefined`
on every other value. -/
def getField (v : JVal) (k : String) : JVal :=
  match v with
  | .obj fields => lookupField fields k
  | _ => .undefined

/-- JavaScript spread `...v` inside an object literal: the bindings of an
object, and no bindings for `undefined`/`null` (the only non-object
values the dashboard ever spreads). -/
def spreadFields : JVal → List (String × JVal)
  | .obj fields => fields
  | _ => []

/-- Test for `Array.isArray(v) && v.length > 0`. -/
def isNonEmptyArr : JVal → Bool
  | .arr xs => !xs.isEmpty
  | _ => false

/-- Key list of an object in JS `Object.keys` order: first occurrence of
each key, in insertion order. -/
def objKeys (fields : List (String × JVal)) : List String :=
  (fields.map Prod.fst).foldl (fun acc k => if k ∈ acc then acc else acc ++ [k]) []

/-- JavaScript `s.includes(sub)`: contiguous substring test. -/
def strIncludes (s sub : String) : Bool :=
  decide (sub.data <:+: s.data)

/-- Apostrophe character, used in messages taken verbatim from the code. -/
def apos : String := String.singleton (Char.ofNat 39)

mutual

/-- Model of `JSON.stringify` restricted to the structural shape the
export code relies on (nested objects and arrays become strings); the
exact number/escape formatting of the vendor function is abstracted. -/
def stringifyV : JVal → String
  | .undefined => "null"
  | .jnull => "null"
  | .bool b => toString b
  | .num n => toString n
  | .str s => "\"" ++ s ++ "\""
  | .date t => "\"" ++ toString t ++ "\""
  | .tstamp t => "\"" ++ toString t ++ "\""
  | .arr xs => "[" ++ stringifyArr xs ++ "]"
  | .obj fields => "\x7b" ++ stringifyFields fields ++ "\x7d"

/-- Array part of `stringifyV`. -/
def stringifyArr : List JVal → String
  | [] => ""
  | [x] => stringifyV x
  | x :: xs => stringifyV x ++ "," ++ stringifyArr xs

/-- Object part of `stringifyV`. -/
def stringifyFields : List (String × JVal) → String
  | [] => ""
  | [(k, v)] => "\"" ++ k ++ "\":" ++ stringifyV v
  | (k, v) :: kvs => "\"" ++ k ++ "\":" ++ stringifyV v ++ "," ++ stringifyFields kvs

end

/-- Model of `Date.prototype.toLocaleString`: locale rendering is
abstracted as decimal rendering of the time value. -/
def toLocaleString : JVal → String
  | .date t => toString t
  | _ => ""

/-- Model of JS `String(x)` for summary cells (only the shapes that reach
it matter; structured values reuse `stringifyV`). -/
def jvalToString : JVal → String
  | .str s => s
  | .num n => toString n
  | .bool b => toString b
  | .undefined => "undefined"
  | .jnull => "null"
  | v => stringifyV v

/-! ### `src/services/api.ts` -/

/-- Options object passed to `fetch` by the api helpers (`method` plus
headers); absent options mean a plain GET. -/
structure ReqOptions where
  method : String
  headers : List (String × String)

/-- One `fetch` request: the URL and the optional options object. -/
structure Request where
  url : String
  options : Option ReqOptions

/-- Effective HTTP method of a request: `fetch` defaults to GET when no
options are given. -/
def reqMethod (r : Request) : String :=
  match r.options with
  | some o => o.method
  | none => "GET"

/-- The JSON POST options used by every action trigger in `api.ts`. -/
def postJsonOptions : ReqOptions :=
  { method := "POST", headers := [("Content-Type", "application/json")] }

/-- Requests issued by `api.healthCheck`. -/
def api.healthCheck (base : String) : List Request :=
  [{ url := base ++ "/health", options := none }]

/-- Requests issued by `api.getAgentStatus`. -/
def api.getAgentStatus (base agentName : String) : List Request :=
  [{ url := base ++ "/agents/" ++ agentName ++ "/status", options := none }]

/-- Requests issued by `api.createDemoEvaluation`. -/
def api.createDemoEvaluation (base : String) : List Request :=
  [{ url := base ++ "/agents/evaluation/create-demo", options := some postJsonOptions }]

/-- Requests issued by `api.generateScenario`. -/
def api.generateScenario (base : String) : List Request :=
  [{ url := base ++ "/mentor/make-scenario", options := some postJsonOptions }]

/-- Requests issued by `api.runSafetyCheck`. -/
def api.runSafetyCheck (base : String) : List Request :=
  [{ url := base ++ "/agents/notification/safety-check", options := some postJsonOptions }]

/-- Requests issued by `api.generateCOAReports`. -/
def api.generateCOAReports (base : String) : List Request :=
  [{ url := base ++ "/agents/coa-compliance/generate-reports", options := some postJsonOptions }]

/-- Requests issued by `api.startAutomatedMode`. -/
def api.startAutomatedMode (base : String) : List Request :=
  [{ url := base ++ "/agents/automated-mode/start", options := some postJsonOptions }]

/-- Requests issued by `api.stopAutomatedMode`. -/
def api.stopAutomatedMode (base : String) : List Request :=
  [{ url := base ++ "/agents/automated-mode/stop", options := some postJsonOptions }]

/-- Requests issued by `api.getAutomatedModeStatus`. -/
def api.getAutomatedModeStatus (base : String) : List Request :=
  [{ url := base ++ "/agents/automated-mode/status", options := none }]

/-- Requests issued by `api.toggleAutomatedMode`. -/
def api.toggleAutomatedMode (base : String) : List Request :=
  [{ url := base ++ "/agents/automated-mode/toggle", options := some postJsonOptions }]

/-- Requests issued by `api.getTimeSavingsAnalytics`; the two arguments are
interpolated into the query string (`Bool` renders as `true`/`false`,
exactly as in a JS template literal). -/
def api.getTimeSavingsAnalytics (base timeframe : String) (includeInsights : Bool) : List Request :=
  [{ url := base ++ "/agents/time-savings/analytics?timeframe=" ++ timeframe ++
        "&include_insights=" ++ toString includeInsights,
     options := none }]

/-- Requests issued by `api.generateSiteReport`. -/
def api.generateSiteReport (base : String) : List Request :=
  [{ url := base ++ "/agents/site/generate-report", options := some postJsonOptions }]

/-- A thrown JS error: its `name` and `message`. -/
structure JsError where
  name : String
  message : String

/-- A resolved `fetch` response: HTTP status, `ok` flag, the body as text
(read by the error path) and the outcome of `response.json()`. -/
structure FetchResponse where
  status : Nat
  ok : Bool
  bodyText : String
  json : Except JsError JVal

/-- Outcome of one call to `fetch`: either a response or a network error. -/
def FetchOutcome : Type := Except JsError FetchResponse

/-- The CORS-detection predicate of `fetchWithErrorHandling`'s catch block:
the error message contains `CORS`, `ERR_CONNECTION_RESET` or
`Failed to fetch`, or it is a `TypeError` whose message contains
`Failed to fetch`. -/
def corsPattern (e : JsError) : Bool :=
  strIncludes e.message "CORS" ||
  strIncludes e.message "ERR_CONNECTION_RESET" ||
  strIncludes e.message "Failed to fetch" ||
  (e.name == "TypeError" && strIncludes e.message "Failed to fetch")

/-- The rewritten error thrown when the CORS pattern matches. -/
def corsError (origin : String) : JsError :=
  { name := "Error",
    message := "CORS_ERROR: Backend server is not configured to allow requests from origin: " ++
      origin ++ ". Please update the backend CORS settings to include this origin." }

/-- The error built for a non-ok HTTP response (status plus the first 100
characters of the body text). -/
def httpStatusError (status : Nat) (bodyText : String) : JsError :=
  { name := "Error",
    message := "HTTP error! status: " ++ toString status ++ ", body: " ++ bodyText.take 100 }

/-- Catch block of `fetchWithErrorHandling`: a matching error is replaced
by the CORS error, every other error is rethrown unchanged. -/
def fetchCatch (origin : String) (e : JsError) : Except JsError JVal :=
  if corsPattern e then .error (corsError origin) else .error e

/-- Shallow embedding of `fetchWithErrorHandling`.  The `fetchResults`
oracle gives the outcome of the k-th call to `fetch`; the body consults
only call 0, so the function issues exactly one fetch.  A non-ok response
raises the status-carrying error through the catch block; a network or
JSON-parse error goes through the catch block unchanged. -/
def fetchWithErrorHandling (origin : String) (fetchResults : Nat → FetchOutcome) :
    Except JsError JVal :=
  match fetchResults 0 with
  | .error e => fetchCatch origin e
  | .ok resp =>
    if !resp.ok then
      fetchCatch origin (httpStatusError resp.status resp.bodyText)
    else
      match resp.json with
      | .error e => fetchCatch origin e
      | .ok v => .ok v

/-! ### `src/services/firestore.ts` -/

/-- A raw document of a query snapshot: its id and its data object. -/
structure RawDoc where
  id : String
  data : List (String × JVal)

/-- The `FirestoreDocument` interface: id, (normalized) data, and the two
optional timestamps (`undefined` models an absent/`undefined` field). -/
structure FirestoreDocument where
  id : String
  data : List (String × JVal)
  createdAt : JVal
  updatedAt : JVal

instance : Inhabited FirestoreDocument :=
  ⟨{ id := "", data := [], createdAt := .undefined, updatedAt := .undefined }⟩

/-- Resolution of the creation timestamp in `snapshotToDocuments` and
`getCollection`:
`data.created_at?.toDate?.() || data.createdAt?.toDate?.() || data.created_at || data.createdAt`. -/
def resolveCreatedTs (data : List (String × JVal)) : JVal :=
  jor (jor (jor (toDateOpt (lookupField data "created_at"))
                (toDateOpt (lookupField data "createdAt")))
           (lookupField data "created_at"))
      (lookupField data "createdAt")

/-- Resolution of the update timestamp:
`data.modified_at?.toDate?.() || data.updated_at?.toDate?.() || data.updatedAt?.toDate?.() || data.modified_at || data.updated_at || data.updatedAt`. -/
def resolveUpdatedTs (data : List (String × JVal)) : JVal :=
  jor (jor (jor (jor (jor (toDateOpt (lookupField data "modified_at"))
                          (toDateOpt (lookupField data "updated_at")))
                     (toDateOpt (lookupField data "updatedAt")))
                (lookupField data "modified_at"))
           (lookupField data "updated_at"))
      (lookupField data "updatedAt")

/-- Claim-side formalization (for comparison with `resolveCreatedTs`) of
the wording "resolves the creation timestamp by trying the fields
created_at then createdAt": the first of the two fields that resolves to
a truthy value (each normalized through `toDate` when it is a
`Timestamp`) wins. -/
def claimCreatedResolve (data : List (String × JVal)) : JVal :=
  jor (jor (toDateOpt (lookupField data "created_at")) (lookupField data "created_at"))
      (jor (toDateOpt (lookupField data "createdAt")) (lookupField data "createdAt"))

/-- Conversion of one raw snapshot document into a `FirestoreDocument`,
as performed by both `snapshotToDocuments` and `getCollection`: the data
is spread and the four timestamp keys are (re)assigned, and the
document-level `createdAt`/`updatedAt` are `new Date(ts)` when the
resolved timestamp is truthy and `undefined` otherwise. -/
def convertDoc (p : String → Int) (d : RawDoc) : FirestoreDocument :=
  let cts := resolveCreatedTs d.data
  let uts := resolveUpdatedTs d.data
  let createdAt := if truthy cts then newDate p cts else .undefined
  let updatedAt := if truthy uts then newDate p uts else .undefined
  { id := d.id,
    data := d.data ++
      [("created_at", cts), ("modified_at", uts),
       ("createdAt", createdAt), ("updatedAt", updatedAt)],
    createdAt := createdAt,
    updatedAt := updatedAt }

/-- The sort comparator of `snapshotToDocuments`/`getCollection`
(`0` when either document lacks `createdAt`, otherwise
`b.createdAt.getTime() - a.createdAt.getTime()`). -/
def snapCmp (a b : FirestoreDocument) : Int :=
  if !truthy a.createdAt || !truthy b.createdAt then 0
  else getTime b.createdAt - getTime a.createdAt

/-- Relation form of `snapCmp`: `a` may precede `b` when the comparator
is non-positive (JS `Array.prototype.sort` semantics; the JS sort is
stable, as is `List.insertionSort`, so the embedding uses the latter). -/
def snapRel (a b : FirestoreDocument) : Prop := snapCmp a b ≤ 0

instance : DecidableRel snapRel := fun a b => inferInstanceAs (Decidable (snapCmp a b ≤ 0))

/-- Shallow embedding of `FirestoreService.snapshotToDocuments`: convert
every snapshot document, then sort newest-first when every converted
document has a `createdAt`, otherwise keep the snapshot order. -/
def snapshotToDocuments (p : String → Int) (docs : List RawDoc) : List FirestoreDocument :=
  let documents := docs.map (convertDoc p)
  if documents.all (fun d => truthy d.createdAt) then
    documents.insertionSort snapRel
  else
    documents

/-- Shallow embedding of the document-processing part of
`FirestoreService.getCollection`, which duplicates the body of
`snapshotToDocuments` line by line. -/
def getCollectionDocs (p : String → Int) (docs : List RawDoc) : List FirestoreDocument :=
  let documents := docs.map (convertDoc p)
  if documents.all (fun d => truthy d.createdAt) then
    documents.insertionSort snapRel
  else
    documents

/-- The descending creation-time ordering that the snapshot sort realizes
on documents that all carry a `createdAt`. -/
def docLe (a b : FirestoreDocument) : Prop :=
  getTime b.createdAt ≤ getTime a.createdAt

instance : DecidableRel docLe :=
  fun a b => inferInstanceAs (Decidable (getTime b.createdAt ≤ getTime a.createdAt))

instance : IsTotal FirestoreDocument docLe :=
  ⟨fun a b => le_total (getTime b.createdAt) (getTime a.createdAt)⟩

instance : IsTrans FirestoreDocument docLe :=
  ⟨fun _ _ _ hab hbc => le_trans hbc hab⟩

/-- An error delivered to a Firestore listener: its optional `code`
(present on `FirebaseError`s, absent on a plain `new Error`) and its
message. -/
structure FsErr where
  code : Option String
  message : String

/-- The permission-denied message built by the Firestore service for a
collection. -/
def permissionDeniedMsg (c : String) : String :=
  "Permission denied: Check Firestore security rules for collection " ++
    apos ++ c ++ apos ++ ". See FIRESTORE_RULES_FIX.md for instructions."

/-- The snapshot-error handler of `listenToCollection` (and of the other
listener installers): the value delivered to the optional `onError`
callback, with permission-denied errors rewritten to a new `Error`
naming the collection.  `none` means `onError` was absent and nothing is
delivered (the error is only logged). -/
def listenerErrorDelivery (collectionName : String) (hasOnError : Bool) (e : FsErr) :
    Option FsErr :=
  if e.code == some "permission-denied" then
    if hasOnError then some { code := none, message := permissionDeniedMsg collectionName }
    else none
  else if hasOnError then some e
  else none

/-- The unsubscribe function returned by a listener installer: either the
real `onSnapshot` unsubscriber or the no-op fallback `() => {}`. -/
inductive Unsubscribe where
  | real
  | noop

/-- Result of installing a listener: the unsubscribe function handed to
the caller, and the errors delivered to the `onError` callback (in
order). -/
structure ListenResult where
  unsubscribe : Unsubscribe
  delivered : List FsErr

/-- Shallow embedding of `FirestoreService.listenToCollection`'s control
flow.  `setup` is the outcome of building the query and calling
`onSnapshot` (either an unsubscribe function or a thrown exception);
`runtimeErrors` are the asynchronous errors later reported to the
snapshot error handler.  On setup success, each runtime error goes
through `listenerErrorDelivery` (permission-denied rewrite, `onError`
optional); on setup failure, the catch block delivers the exception to
`onError` (when present) and returns the no-op unsubscribe function
instead of rethrowing. -/
def listenToCollection (collectionName : String) (hasOnError : Bool)
    (setup : Except FsErr Unsubscribe) (runtimeErrors : List FsErr) : ListenResult :=
  match setup with
  | .ok u =>
    { unsubscribe := u,
      delivered := runtimeErrors.filterMap (listenerErrorDelivery collectionName hasOnError) }
  | .error e =>
    { unsubscribe := .noop,
      delivered := if hasOnError then [e] else [] }

/-- Wrapper `listenToEvaluations` (fixed collection `agent_evaluations`). -/
def listenToEvaluations (hasOnError : Bool) (setup : Except FsErr Unsubscribe)
    (runtimeErrors : List FsErr) : ListenResult :=
  listenToCollection "agent_evaluations" hasOnError setup runtimeErrors

/-- Installer `listenToScenarios`: its body duplicates the
`listenToCollection` try/catch over the `agent_scenarios` collection. -/
def listenToScenarios (hasOnError : Bool) (setup : Except FsErr Unsubscribe)
    (runtimeErrors : List FsErr) : ListenResult :=
  match setup with
  | .ok u =>
    { unsubscribe := u,
      delivered := runtimeErrors.filterMap (listenerErrorDelivery "agent_scenarios" hasOnError) }
  | .error e =>
    { unsubscribe := .noop,
      delivered := if hasOnError then [e] else [] }

/-- Wrapper `listenToNotifications` (collection `agent_notifications`). -/
def listenToNotifications (hasOnError : Bool) (setup : Except FsErr Unsubscribe)
    (runtimeErrors : List FsErr) : ListenResult :=
  listenToCollection "agent_notifications" hasOnError setup runtimeErrors

/-- Wrapper `listenToCOAReports` (collection `agent_coa_reports`). -/
def listenToCOAReports (hasOnError : Bool) (setup : Except FsErr Unsubscribe)
    (runtimeErrors : List FsErr) : ListenResult :=
  listenToCollection "agent_coa_reports" hasOnError setup runtimeErrors

/-- Wrapper `listenToSiteReports` (collection `agent_sites`). -/
def listenToSiteReports (hasOnError : Bool) (setup : Except FsErr Unsubscribe)
    (runtimeErrors : List FsErr) : ListenResult :=
  listenToCollection "agent_sites" hasOnError setup runtimeErrors

/-! ### `src/App.tsx`: `handleAgentAction` -/

/-- The object literal built by both the optimistic update and the
rollback of `handleAgentAction`:
`{ state: s, status: s, agent_state: s, ...prevStates[agent.apiName] }`.
Note the spread comes last, so existing fields of the previous entry
override the three explicit assignments. -/
def agentEntry (s : String) (prev : JVal) : JVal :=
  .obj ([("state", .str s), ("status", .str s), ("agent_state", .str s)] ++ spreadFields prev)

/-- JavaScript strict equality `v === false`. -/
def isStrictFalse : JVal → Bool
  | .bool false => true
  | _ => false

/-- Functional update of the `agentFirestoreStates` map at one key. -/
def setAgentState (states : String → JVal) (apiName : String) (v : JVal) : String → JVal :=
  fun n => if n = apiName then v else states n

/-- Shallow embedding of the state effect of `handleAgentAction`: given
the automated-mode flag, the current `agentFirestoreStates` map, the
agent's `apiName` and the outcome of the REST action (`ok` result value
or thrown error), it returns the final `agentFirestoreStates` map.  When
automated mode is on the handler returns before touching state; otherwise
the optimistic update runs first, and the rollback entry is written when
the action throws or resolves with `ok === false`. -/
def handleAgentAction (automatedMode : Bool) (states : String → JVal) (apiName : String)
    (outcome : Except JsError JVal) : String → JVal :=
  if automatedMode then states
  else
    let s1 := setAgentState states apiName (agentEntry "active" (states apiName))
    match outcome with
    | .ok result =>
      if !isStrictFalse (getField result "ok") then s1
      else setAgentState s1 apiName (agentEntry "idle" (s1 apiName))
    | .error _ =>
      setAgentState s1 apiName (agentEntry "idle" (s1 apiName))

/-! ### `src/utils/excelExport.ts`

The workbook model records, per worksheet, its name and the sequence of
`addRow` calls (cell-level styling, logo images and merged title cells
are presentation-only and abstracted away; `addLogoHeader` and the
no-logo title branches each contribute exactly the one blank row they
add through `addRow([])`).  `hasLogo` says whether `loadLogoAsBase64`
succeeded, `stdMap` is the id-to-description mapping read from
`standards.json`. -/

/-- One worksheet: the name passed to `addWorksheet` (a string in every
reachable case, kept as a `JVal` because the student-sheet name is
computed from an untyped field) and its added rows. -/
structure Sheet where
  name : JVal
  rows : List (List JVal)

/-- Observable outcome of an export function: the alert messages shown,
the worksheets of the built workbook in creation order, and whether a
browser download was triggered.  (The timestamped filename is derived
from the wall clock and abstracted to the `downloaded` flag.) -/
structure ExportOutput where
  alerts : List String
  sheets : List Sheet
  downloaded : Bool

/-- Lookup `standardsMap.get(standardId) || standardId`: map hit for a
string id, otherwise the id value itself. -/
def stdDescription (stdMap : List (String × String)) (idv : JVal) : JVal :=
  jor (match idv with
       | .str s =>
         match stdMap.find? (fun kv => kv.1 == s) with
         | some kv => .str kv.2
         | none => .undefined
       | _ => .undefined)
      idv

/-- The standard-id resolution of the per-student standards table:
`score.id || score.standard_id || score.standardId || 'N/A'`. -/
def resolveStandardId (score : JVal) : JVal :=
  jor (jor (jor (getField score "id") (getField score "standard_id"))
           (getField score "standardId"))
      (.str "N/A")

/-- JavaScript `x !== undefined && x !== null`. -/
def notUndefNull : JVal → Bool
  | .undefined => false
  | .jnull => false
  | _ => true

/-- The score-value resolution of the per-student standards table: the
first of `score.score`, `score.value`, `score.scores` that is neither
`undefined` nor `null`, and `0` when none is. -/
def resolveScoreValue (score : JVal) : JVal :=
  if notUndefNull (getField score "score") then getField score "score"
  else if notUndefNull (getField score "value") then getField score "value"
  else if notUndefNull (getField score "scores") then getField score "scores"
  else .num 0

/-- Worksheet-name computation for a student sheet:
`studentName.length > 31 ? studentName.substring(0, 28) + '...' : studentName`
(on a non-string name `.length` is `undefined`, the comparison is false
and the value is used unchanged). -/
def sheetNameOf : JVal → JVal
  | .str s => if s.length > 31 then .str (s.take 28 ++ "...") else .str s
  | v => v

/-- The `student_reports` array of a report document (empty when the
field is not an array). -/
def coaStudentReports (d : FirestoreDocument) : List JVal :=
  match lookupField d.data "student_reports" with
  | .arr l => l
  | _ => []

/-- The document scan predicate of the COA export fallback:
`Array.isArray(docData.student_reports)` and some entry has a non-empty
`standard_scores` array. -/
def coaHasStdData (d : FirestoreDocument) : Bool :=
  match lookupField d.data "student_reports" with
  | .arr l => l.any (fun sr => isNonEmptyArr (getField sr "standard_scores"))
  | _ => false

/-- The guard under which the COA export searches for a replacement
document: the latest report's `student_reports` is a non-empty array and
no entry of it has a non-empty `standard_scores` array. -/
def coaFallbackCond (d : FirestoreDocument) : Bool :=
  match lookupField d.data "student_reports" with
  | .arr l => !l.isEmpty && !(l.any (fun sr => isNonEmptyArr (getField sr "standard_scores")))
  | _ => false

/-- The `getDate` helper of the COA export comparator: `doc.createdAt`
first, then `doc.data.created_at` (normalized through `toDate` when it
is a `Timestamp`), else 0. -/
def coaGetDate (p : String → Int) (d : FirestoreDocument) : Int :=
  if truthy d.createdAt then getTime (newDate p d.createdAt)
  else if truthy (lookupField d.data "created_at") then
    getTime (newDate p (jor (toDateOpt (lookupField d.data "created_at"))
                            (lookupField d.data "created_at")))
  else 0

/-- Relation form of the COA export comparator
`(a, b) => getDate(b) - getDate(a)` (newest first; JS sort and
`List.insertionSort` are both stable). -/
def coaRel (p : String → Int) (a b : FirestoreDocument) : Prop :=
  coaGetDate p b - coaGetDate p a ≤ 0

instance (p : String → Int) : DecidableRel (coaRel p) :=
  fun a b => inferInstanceAs (Decidable (coaGetDate p b - coaGetDate p a ≤ 0))

instance (p : String → Int) : IsTotal FirestoreDocument (coaRel p) :=
  ⟨fun a b => by
    unfold coaRel
    omega⟩

instance (p : String → Int) : IsTrans FirestoreDocument (coaRel p) :=
  ⟨fun a b c hab hbc => by
    unfold coaRel at hab hbc ⊢
    omega⟩

/-- `[...documents].sort(comparator)` of the COA export. -/
def coaSortedDocs (p : String → Int) (documents : List FirestoreDocument) :
    List FirestoreDocument :=
  documents.insertionSort (coaRel p)

/-- `sortedDocs[0]`, the newest report. -/
def coaLatestDoc (p : String → Int) (documents : List FirestoreDocument) : FirestoreDocument :=
  (coaSortedDocs p documents).headI

/-- The report the COA export actually renders: the newest one, replaced
by the first (hence newest) sorted document with real standard-score
data when the newest one has a non-empty `student_reports` array whose
entries all lack standard scores. -/
def coaDocumentToUse (p : String → Int) (documents : List FirestoreDocument) :
    FirestoreDocument :=
  let latestDoc := coaLatestDoc p documents
  if coaFallbackCond latestDoc then
    ((coaSortedDocs p documents).find? (fun d => coaHasStdData d)).getD latestDoc
  else latestDoc

/-- The `Summary` worksheet of the COA export (the logo and the no-logo
title branch each add exactly one blank row before the table). -/
def coaSummarySheet (p : String → Int) (documentToUse : FirestoreDocument) : Sheet :=
  let finalData := documentToUse.data
  { name := .str "Summary",
    rows := [[]] ++
      [[.str "Report ID", .str "Created Date", .str "Students Processed",
        .str "Total Standards", .str "Student Reports Count",
        .str "Standard Scores Count", .str "Agent"]] ++
      [[.str (documentToUse.id.take 8),
        .str (if truthy documentToUse.createdAt then
                toLocaleString (newDate p documentToUse.createdAt)
              else "N/A"),
        jor (lookupField finalData "students_processed") (.num 0),
        jor (lookupField finalData "total_standards") (.num 0),
        .num (match lookupField finalData "student_reports" with
              | .arr l => (l.length : Int)
              | _ => 0),
        .num (match lookupField finalData "standard_scores" with
              | .arr l => (l.length : Int)
              | _ => 0),
        jor (lookupField finalData "agent") (.str "N/A")]] }

/-- One per-student worksheet of the COA export: the student-summary
section followed by the standard-scores section. -/
def coaStudentSheet (hasLogo : Bool) (stdMap : List (String × String)) (reportId : String)
    (sr : JVal) : Sheet :=
  let studentName := jor (getField sr "student_name") (.str "N/A")
  let studentId := jor (getField sr "student_id") (.str "N/A")
  let classStanding := jor (getField sr "class_standing") (.str "N/A")
  let standardScores := jor (jor (getField sr "standard_scores") (getField sr "standards"))
                            (.arr [])
  let standardsRows :=
    match standardScores with
    | .arr scores =>
      if !scores.isEmpty then
        scores.map (fun score =>
          [stdDescription stdMap (resolveStandardId score), resolveScoreValue score])
      else [[.str "No standards found", .str ""]]
    | _ => [[.str "No standards found", .str ""]]
  { name := sheetNameOf studentName,
    rows := (if hasLogo then [[]] else []) ++
      [[.str "Student Summary"], []] ++
      [[.str "Field", .str "Value"]] ++
      [[.str "Report ID", .str reportId],
       [.str "Student ID", studentId],
       [.str "Student Name", studentName],
       [.str "Class Standing", classStanding],
       [.str "Evaluations Processed", jor (getField sr "evaluations_processed") (.num 0)],
       [.str "Total Score", jor (getField sr "total_score") (.num 0)],
       [.str "Total Standards", jor (getField sr "total_standards") (.num 0)],
       [.str "Generated At", jor (getField sr "generated_at") (.str "N/A")]] ++
      [[], []] ++
      [[.str "Standard Scores"], []] ++
      [[.str "Standard Description", .str "Preceptor Attestations"]] ++
      standardsRows }

/-- The aggregate-standards data rows (one per entry of the top-level
`standard_scores` array, empty when absent or not an array). -/
def coaAggregateRows (stdMap : List (String × String)) (reportId : String)
    (finalData : List (String × JVal)) : List (List JVal) :=
  match lookupField finalData "standard_scores" with
  | .arr scores =>
    scores.map (fun score =>
      let standardId := jor (getField score "id") (.str "N/A")
      [.str reportId, standardId, stdDescription stdMap standardId,
       jor (getField score "score") (.num 0)])
  | _ => []

/-- Shallow embedding of `exportCOAReportsToExcel`: on empty input, an
alert and no workbook; otherwise the `Summary` sheet, one sheet per
entry of the selected report's `student_reports` array, the
`Aggregate Standards` sheet when the aggregate data rows are non-empty,
and a triggered download. -/
def exportCOAReportsToExcel (p : String → Int) (stdMap : List (String × String))
    (hasLogo : Bool) (documents : List FirestoreDocument) : ExportOutput :=
  if documents.isEmpty then
    { alerts := ["No COA reports to export"], sheets := [], downloaded := false }
  else
    let documentToUse := coaDocumentToUse p documents
    let finalData := documentToUse.data
    let reportId := documentToUse.id.take 8
    let studentSheets :=
      match lookupField finalData "student_reports" with
      | .arr srs => srs.map (coaStudentSheet hasLogo stdMap reportId)
      | _ => []
    let aggRows := coaAggregateRows stdMap reportId finalData
    let aggSheets :=
      if !aggRows.isEmpty then
        [{ name := .str "Aggregate Standards",
           rows := (if hasLogo then [[]] else []) ++
             [[.str "Report ID", .str "Standard ID", .str "Standard Description", .str "Score"]] ++
             aggRows : Sheet }]
      else []
    { alerts := [],
      sheets := coaSummarySheet p documentToUse :: studentSheets ++ aggSheets,
      downloaded := true }

/-- The date extraction of the site-report sort comparator:
`(d.data.created_at?.toDate ? d.data.created_at.toDate() : null) || (d.createdAt ? new Date(d.createdAt) : new Date(0))`. -/
def siteGetDateVal (p : String → Int) (d : FirestoreDocument) : JVal :=
  jor (match lookupField d.data "created_at" with
       | .tstamp t => .date t
       | _ => .jnull)
      (if truthy d.createdAt then newDate p d.createdAt else .date 0)

/-- Relation form of the site-report comparator
`(a, b) => dateB.getTime() - dateA.getTime()` (newest first). -/
def siteRel (p : String → Int) (a b : FirestoreDocument) : Prop :=
  getTime (siteGetDateVal p b) - getTime (siteGetDateVal p a) ≤ 0

instance (p : String → Int) : DecidableRel (siteRel p) :=
  fun a b =>
    inferInstanceAs (Decidable (getTime (siteGetDateVal p b) - getTime (siteGetDateVal p a) ≤ 0))

/-- The `formatFirestoreDate` helper of the site export. -/
def formatFirestoreDate (p : String → Int) (v : JVal) : String :=
  if !truthy v then "N/A"
  else
    match v with
    | .tstamp t => toLocaleString (.date t)
    | .date t => toLocaleString (.date t)
    | .str s => toLocaleString (newDate p (.str s))
    | w => jvalToString w

/-- JavaScript `xs.join(', ')` over an untyped array. -/
def joinVals (xs : List JVal) : String :=
  String.intercalate ", " (xs.map jvalToString)

/-- The `Case Types` cell of the site/preceptor tables:
`Array.isArray(x.case_types) ? x.case_types.join(', ') : (x.case_types || 'N/A')`. -/
def caseTypesCell (x : JVal) : JVal :=
  match getField x "case_types" with
  | .arr xs => .str (joinVals xs)
  | v => jor v (.str "N/A")

/-- The `Preceptor Names` cell of the sites table. -/
def preceptorNamesCell (site : JVal) : JVal :=
  match getField site "preceptor_names" with
  | .arr xs => .str (joinVals xs)
  | _ =>
    match getField site "preceptors" with
    | .arr xs => .str (joinVals xs)
    | v => jor v (.str "N/A")

/-- Shallow embedding of `exportSiteReportsToExcel`: alert on empty
input; otherwise a `Summary`, a `Sites` and a `Preceptors` sheet built
from the newest report, and a triggered download. -/
def exportSiteReportsToExcel (p : String → Int) (hasLogo : Bool)
    (documents : List FirestoreDocument) : ExportOutput :=
  if documents.isEmpty then
    { alerts := ["No site reports available to export. Please generate some reports first."],
      sheets := [], downloaded := false }
  else
    let sortedDocs := documents.insertionSort (siteRel p)
    let latestDoc := sortedDocs.headI
    let data := latestDoc.data
    let analysisData := jor (lookupField data "analysis_data") (.obj data)
    let sites := jor (jor (getField analysisData "sites") (lookupField data "sites")) (.arr [])
    let preceptors :=
      jor (jor (getField analysisData "preceptors") (lookupField data "preceptors")) (.arr [])
    let summaryValues :=
      [.str (latestDoc.id.take 8),
       .str (formatFirestoreDate p (jor (lookupField data "created_at") latestDoc.createdAt)),
       .str (formatFirestoreDate p
         (jor (lookupField data "generated_at") (getField analysisData "generated_at"))),
       .str (formatFirestoreDate p
         (jor (getField analysisData "analyzed_at") (lookupField data "analyzed_at"))),
       jor (lookupField data "report_version") (.str "N/A"),
       jor (jor (getField analysisData "total_sites") (lookupField data "total_sites")) (.num 0),
       jor (jor (getField analysisData "total_preceptors") (lookupField data "total_preceptors"))
           (.num 0),
       jor (jor (getField analysisData "total_evaluations") (lookupField data "total_evaluations"))
           (.num 0),
       jor (jor (lookupField data "total_evaluations_analyzed")
                (getField analysisData "total_evaluations"))
           (.num 0),
       jor (lookupField data "agent") (.str "N/A")]
    let reportTextRows :=
      if truthy (lookupField data "report_text") then
        [[], [.str "Report Text"], [lookupField data "report_text"]]
      else []
    let summarySheet : Sheet :=
      { name := .str "Summary",
        rows := [[]] ++
          [[.str "Report ID", .str "Created Date", .str "Generated Date", .str "Analyzed Date",
            .str "Report Version", .str "Total Sites", .str "Total Preceptors",
            .str "Total Evaluations", .str "Total Evaluations Analyzed", .str "Agent"]] ++
          [summaryValues] ++ reportTextRows }
    let siteRows :=
      match sites with
      | .arr l =>
        if !l.isEmpty then
          l.map (fun site =>
            [jor (jor (getField site "name") (getField site "site_name")) (.str "N/A"),
             jor (jor (getField site "total_evaluations") (getField site "evaluations_count"))
                 (.num 0),
             jor (getField site "unique_preceptors") (.num 0),
             caseTypesCell site,
             preceptorNamesCell site])
        else [[.str "No sites data available", .str "", .str "", .str "", .str ""]]
      | _ => [[.str "No sites data available", .str "", .str "", .str "", .str ""]]
    let sitesSheet : Sheet :=
      { name := .str "Sites",
        rows := (if hasLogo then [[]] else []) ++
          [[.str "Site Name", .str "Total Evaluations", .str "Unique Preceptors",
            .str "Case Types", .str "Preceptor Names"]] ++ siteRows }
    let preceptorRows :=
      match preceptors with
      | .arr l =>
        if !l.isEmpty then
          l.map (fun preceptor =>
            [jor (jor (getField preceptor "name") (getField preceptor "preceptor_name"))
                 (.str "N/A"),
             jor (jor (getField preceptor "site") (getField preceptor "site_name")) (.str "N/A"),
             jor (getField preceptor "student_count") (.num 0),
             jor (jor (getField preceptor "total_evaluations")
                      (getField preceptor "evaluations_count"))
                 (.num 0),
             caseTypesCell preceptor])
        else [[.str "No preceptors data available", .str "", .str "", .str "", .str ""]]
      | _ => [[.str "No preceptors data available", .str "", .str "", .str "", .str ""]]
    let preceptorsSheet : Sheet :=
      { name := .str "Preceptors",
        rows := (if hasLogo then [[]] else []) ++
          [[.str "Preceptor Name", .str "Site", .str "Student Count", .str "Total Evaluations",
            .str "Case Types"]] ++ preceptorRows }
    { alerts := [],
      sheets := [summarySheet, sitesSheet, preceptorsSheet],
      downloaded := true }

/-- JavaScript `s.replace(pat, rep)` with a string pattern: only the
first occurrence is replaced. -/
def replaceFirst (s pat rep : String) : String :=
  match s.splitOn pat with
  | [] => s
  | x :: rest => if rest.isEmpty then s else x ++ rep ++ String.intercalate pat rest

/-- The flattened spreadsheet row `exportToExcel` builds for one
document: `ID`, `Created Date`, then one entry per data key with nested
objects and non-empty arrays rendered through `JSON.stringify`, empty
arrays as `'[]'` and `null`/`undefined` as `'N/A'`. -/
def flattenDocRow (p : String → Int) (doc : FirestoreDocument) : List (String × JVal) :=
  [("ID", .str doc.id),
   ("Created Date",
    .str (if truthy doc.createdAt then toLocaleString (newDate p doc.createdAt) else "N/A"))] ++
  (objKeys doc.data).map (fun k =>
    let value := lookupField doc.data k
    (k, match value with
        | .jnull => .str "N/A"
        | .undefined => .str "N/A"
        | .obj fs => .str (stringifyV (.obj fs))
        | .tstamp t => .str (stringifyV (.tstamp t))
        | .arr xs => if !xs.isEmpty then .str (stringifyV (.arr xs)) else .str "[]"
        | v => v))

/-- JavaScript `Object.values(row)`: the (final) value of each key in
first-occurrence key order. -/
def objValues (fields : List (String × JVal)) : List JVal :=
  (objKeys fields).map (lookupField fields)

/-- Shallow embedding of the generic `exportToExcel`: alert on empty
input; otherwise a single worksheet named after the collection (with the
first `agent_` prefix occurrence removed), holding the header row of the
first document's flattened keys and one flattened row per document, then
a triggered download. -/
def exportToExcel (p : String → Int) (documents : List FirestoreDocument)
    (collectionName : String) : ExportOutput :=
  if documents.isEmpty then
    { alerts := ["No " ++ collectionName ++ " documents to export"],
      sheets := [], downloaded := false }
  else
    let exportData := documents.map (flattenDocRow p)
    let headerRow := (objKeys exportData.headI).map JVal.str
    { alerts := [],
      sheets := [{ name := .str (replaceFirst collectionName "agent_" ""),
                   rows := [[]] ++ [headerRow] ++ exportData.map objValues }],
      downloaded := true }

/-! ### Helper lemmas -/

theorem str_data_append (a b : String) : (a ++ b).data = a.data ++ b.data := rfl

theorem strIncludes_sandwich (a b c : String) : strIncludes (a ++ b ++ c) b = true := by
  apply decide_eq_true
  rw [str_data_append, str_data_append]
  exact List.infix_append _ _ _

theorem newDate_ne_undef (p : String → Int) (v : JVal) : newDate p v ≠ .undefined := by
  cases v <;> simp [newDate]

theorem lookupField_append_right_nomatch (l₁ l₂ : List (String × JVal)) (k : String)
    (h : ∀ kv ∈ l₂, (kv.1 == k) = false) :
    lookupField (l₁ ++ l₂) k = lookupField l₁ k := by
  unfold lookupField
  rw [List.reverse_append, List.find?_append]
  have : l₂.reverse.find? (fun kv => kv.1 == k) = none := by
    rw [List.find?_eq_none]
    intro kv hkv
    simp [h kv (List.mem_reverse.mp hkv)]
  rw [this, Option.none_or]

theorem orderedInsert_congr {α : Type} (r r' : α → α → Prop) [DecidableRel r] [DecidableRel r']
    (a : α) : ∀ (l : List α), (∀ b ∈ l, r a b ↔ r' a b) →
    l.orderedInsert r a = l.orderedInsert r' a
  | [], _ => rfl
  | b :: l, h => by
    simp only [List.orderedInsert]
    by_cases hb : r a b
    · rw [if_pos hb, if_pos ((h b (by simp)).mp hb)]
    · rw [if_neg hb, if_neg (fun h2 => hb ((h b (by simp)).mpr h2)),
        orderedInsert_congr r r' a l (fun x hx => h x (by simp [hx]))]

theorem insertionSort_congr {α : Type} (r r' : α → α → Prop) [DecidableRel r] [DecidableRel r'] :
    ∀ (l : List α), (∀ x ∈ l, ∀ y ∈ l, r x y ↔ r' x y) →
    l.insertionSort r = l.insertionSort r'
  | [], _ => rfl
  | a :: l, h => by
    simp only [List.insertionSort]
    rw [insertionSort_congr r r' l (fun x hx y hy => h x (by simp [hx]) y (by simp [hy]))]
    apply orderedInsert_congr
    intro b hb
    exact h a (by simp) b (by simp [(List.mem_insertionSort r').mp hb])

theorem snapRel_iff_docLe (a b : FirestoreDocument) (ha : truthy a.createdAt = true)
    (hb : truthy b.createdAt = true) : snapRel a b ↔ docLe a b := by
  unfold snapRel snapCmp docLe
  rw [ha, hb]
  simp [sub_nonpos]

theorem coaRel_refl (p : String → Int) (a : FirestoreDocument) : coaRel p a a := by
  unfold coaRel
  omega

/-! ### Claims -/

/-- C1: `handleAgentAction` is documented (comments and log lines) to set
the triggered agent's `agentFirestoreStates` entry to the active state
optimistically and to revert it to the idle state when the REST action
fails, but the rollback object literal spreads the previous entry *after*
the explicit idle fields, so the optimistic `active` fields survive:
after a thrown action on a previously absent entry, the entry still reads
`active` in all three state fields instead of `idle`. -/
theorem handleAgentAction_rollback_stays_active :
    getField (handleAgentAction false (fun _ => .undefined) "scenario_agent"
        (.error { name := "Error", message := "Failed to fetch" }) "scenario_agent") "state" =
      .str "active" ∧
    getField (handleAgentAction false (fun _ => .undefined) "scenario_agent"
        (.error { name := "Error", message := "Failed to fetch" }) "scenario_agent") "status" =
      .str "active" ∧
    getField (handleAgentAction false (fun _ => .undefined) "scenario_agent"
        (.error { name := "Error", message := "Failed to fetch" }) "scenario_agent")
        "agent_state" =
      .str "active" ∧
    handleAgentAction false (fun _ => .undefined) "scenario_agent"
        (.error { name := "Error", message := "Failed to fetch" }) "coa_agent" = .undefined :=
  ⟨rfl, rfl, rfl, rfl⟩

/-- C7: every method of the `api` object issues exactly one fetch, with
the fixed path under the configured base URL and the fixed HTTP method
(GET by default, POST with JSON headers for the action triggers), and
`getTimeSavingsAnalytics` passes its two arguments as query parameters. -/
theorem api_methods_single_fixed_request (base agentName timeframe : String)
    (includeInsights : Bool) :
    (api.healthCheck base).map (fun r => (r.url, reqMethod r)) =
      [(base ++ "/health", "GET")] ∧
    (api.getAgentStatus base agentName).map (fun r => (r.url, reqMethod r)) =
      [(base ++ "/agents/" ++ agentName ++ "/status", "GET")] ∧
    (api.createDemoEvaluation base).map (fun r => (r.url, reqMethod r)) =
      [(base ++ "/agents/evaluation/create-demo", "POST")] ∧
    (api.generateScenario base).map (fun r => (r.url, reqMethod r)) =
      [(base ++ "/mentor/make-scenario", "POST")] ∧
    (api.runSafetyCheck base).map (fun r => (r.url, reqMethod r)) =
      [(base ++ "/agents/notification/safety-check", "POST")] ∧
    (api.generateCOAReports base).map (fun r => (r.url, reqMethod r)) =
      [(base ++ "/agents/coa-compliance/generate-reports", "POST")] ∧
    (api.startAutomatedMode base).map (fun r => (r.url, reqMethod r)) =
      [(base ++ "/agents/automated-mode/start", "POST")] ∧
    (api.stopAutomatedMode base).map (fun r => (r.url, reqMethod r)) =
      [(base ++ "/agents/automated-mode/stop", "POST")] ∧
    (api.getAutomatedModeStatus base).map (fun r => (r.url, reqMethod r)) =
      [(base ++ "/agents/automated-mode/status", "GET")] ∧
    (api.toggleAutomatedMode base).map (fun r => (r.url, reqMethod r)) =
      [(base ++ "/agents/automated-mode/toggle", "POST")] ∧
    (api.getTimeSavingsAnalytics base timeframe includeInsights).map
        (fun r => (r.url, reqMethod r)) =
      [(base ++ "/agents/time-savings/analytics?timeframe=" ++ timeframe ++
          "&include_insights=" ++ toString includeInsights, "GET")] ∧
    (api.generateSiteReport base).map (fun r => (r.url, reqMethod r)) =
      [(base ++ "/agents/site/generate-report", "POST")] :=
  ⟨rfl, rfl, rfl, rfl, rfl, rfl, rfl, rfl, rfl, rfl, rfl, rfl⟩

/-- C10: each export function alerts and stops (no worksheets, no
download) on an empty documents array, and triggers a download with no
alert exactly when the input is non-empty. -/
theorem export_empty_alert_guard (p : String → Int) (stdMap : List (String × String))
    (hasLogo : Bool) (documents : List FirestoreDocument) (collectionName : String) :
    exportCOAReportsToExcel p stdMap hasLogo [] =
      { alerts := ["No COA reports to export"], sheets := [], downloaded := false } ∧
    exportSiteReportsToExcel p hasLogo [] =
      { alerts := ["No site reports available to export. Please generate some reports first."],
        sheets := [], downloaded := false } ∧
    exportToExcel p [] collectionName =
      { alerts := ["No " ++ collectionName ++ " documents to export"],
        sheets := [], downloaded := false } ∧
    (documents ≠ [] →
      (exportCOAReportsToExcel p stdMap hasLogo documents).downloaded = true ∧
      (exportCOAReportsToExcel p stdMap hasLogo documents).alerts = [] ∧
      (exportSiteReportsToExcel p hasLogo documents).downloaded = true ∧
      (exportSiteReportsToExcel p hasLogo documents).alerts = [] ∧
      (exportToExcel p documents collectionName).downloaded = true ∧
      (exportToExcel p documents collectionName).alerts = []) := by
  refine ⟨rfl, rfl, rfl, fun h => ?_⟩
  match documents, h with
  | d :: ds, _ =>
    exact ⟨rfl, rfl, rfl, rfl, rfl, rfl⟩

/-- C10 witness: a concrete singleton input triggers a download and no
alert in all three export functions. -/
theorem export_empty_alert_guard_witness :
    (exportCOAReportsToExcel (fun _ => 0) [] true
        [{ id := "a", data := [], createdAt := .undefined, updatedAt := .undefined }]).downloaded = true ∧
    (exportCOAReportsToExcel (fun _ => 0) [] true
        [{ id := "a", data := [], createdAt := .undefined, updatedAt := .undefined }]).alerts = [] ∧
    (exportSiteReportsToExcel (fun _ => 0) true
        [{ id := "a", data := [], createdAt := .undefined, updatedAt := .undefined }]).downloaded = true ∧
    (exportSiteReportsToExcel (fun _ => 0) true
        [{ id := "a", data := [], createdAt := .undefined, updatedAt := .undefined }]).alerts = [] ∧
    (exportToExcel (fun _ => 0)
        [{ id := "a", data := [], createdAt := .undefined, updatedAt := .undefined }]
        "agent_scenarios").downloaded = true ∧
    (exportToExcel (fun _ => 0)
        [{ id := "a", data := [], createdAt := .undefined, updatedAt := .undefined }]
        "agent_scenarios").alerts = [] :=
  (export_empty_alert_guard (fun _ => 0) [] true
      [{ id := "a", data := [], createdAt := .undefined, updatedAt := .undefined }]
      "agent_scenarios").2.2.2 (List.cons_ne_nil _ _)

/-- C9: the listener installers never propagate an exception to the
caller: a setup failure yields the no-op unsubscribe function, errors are
delivered to `onError` only when the callback was provided,
permission-denied runtime errors are rewritten to a new error whose
message names the collection, other runtime errors are passed through
unchanged, and the per-collection wrappers all reduce to
`listenToCollection` on their fixed collection. -/
theorem listeners_never_throw (c : String) (hasOnError : Bool)
    (setup : Except FsErr Unsubscribe) (runtimeErrors : List FsErr) (e e0 : FsErr) :
    (listenToCollection c hasOnError (.error e0) runtimeErrors).unsubscribe = .noop ∧
    (hasOnError = false →
      (listenToCollection c hasOnError setup runtimeErrors).delivered = []) ∧
    (e.code = some "permission-denied" →
      listenerErrorDelivery c true e = some { code := none, message := permissionDeniedMsg c } ∧
      strIncludes (permissionDeniedMsg c) c = true) ∧
    (e.code ≠ some "permission-denied" → listenerErrorDelivery c true e = some e) ∧
    listenToEvaluations hasOnError setup runtimeErrors =
      listenToCollection "agent_evaluations" hasOnError setup runtimeErrors ∧
    listenToScenarios hasOnError setup runtimeErrors =
      listenToCollection "agent_scenarios" hasOnError setup runtimeErrors ∧
    listenToNotifications hasOnError setup runtimeErrors =
      listenToCollection "agent_notifications" hasOnError setup runtimeErrors ∧
    listenToCOAReports hasOnError setup runtimeErrors =
      listenToCollection "agent_coa_reports" hasOnError setup runtimeErrors ∧
    listenToSiteReports hasOnError setup runtimeErrors =
      listenToCollection "agent_sites" hasOnError setup runtimeErrors := by
  refine ⟨rfl, fun hno => ?_, fun hpd => ⟨?_, ?_⟩, fun hnpd => ?_, rfl, ?_, rfl, rfl, rfl⟩
  · subst hno
    cases setup with
    | ok u =>
      simp only [listenToCollection, List.filterMap_eq_nil_iff]
      intro a _
      simp [listenerErrorDelivery]
    | error e1 => simp [listenToCollection]
  · simp [listenerErrorDelivery, hpd]
  · have : permissionDeniedMsg c =
        ("Permission denied: Check Firestore security rules for collection " ++ apos) ++ c ++
          (apos ++ ". See FIRESTORE_RULES_FIX.md for instructions.") := by
      unfold permissionDeniedMsg
      rw [String.append_assoc, String.append_assoc, String.append_assoc]
    rw [this]
    exact strIncludes_sandwich _ _ _
  · have : (e.code == some "permission-denied") = false := by
      cases hc : e.code with
      | none => rfl
      | some s =>
        rw [beq_eq_false_iff_ne]
        intro hs
        exact hnpd (by rw [hc, hs])
    simp [listenerErrorDelivery, this]
  · cases setup <;> rfl

/-- C9 witness: at a concrete collection and error, a failed setup
returns the no-op unsubscriber and a permission-denied runtime error is
rewritten to the message naming the collection. -/
theorem listeners_never_throw_witness :
    (listenToCollection "agent_coa_reports" true
        (.error { code := some "unavailable", message := "backend down" }) []).unsubscribe =
      .noop ∧
    listenerErrorDelivery "agent_coa_reports" true
        { code := some "permission-denied", message := "denied" } =
      some { code := none, message := permissionDeniedMsg "agent_coa_reports" } ∧
    strIncludes (permissionDeniedMsg "agent_coa_reports") "agent_coa_reports" = true := by
  have h := listeners_never_throw "agent_coa_reports" true (.ok .real) []
    { code := some "permission-denied", message := "denied" }
    { code := some "unavailable", message := "backend down" }
  exact ⟨h.1, (h.2.2.1 rfl).1, (h.2.2.1 rfl).2⟩

/-- C2 (amended): `fetchWithErrorHandling` consults only the first fetch
outcome (no retry); an ok response whose body parses returns the parsed
JSON; a non-ok response, a network error or a JSON-parse failure all
surface as a thrown error, and for a non-ok response the error message
carries the HTTP status unless the composed message matches the
CORS-detection patterns, in which case the rewritten `CORS_ERROR` message
is thrown instead. -/
theorem fetch_error_handling (origin : String) (f g : Nat → FetchOutcome) :
    (f 0 = g 0 → fetchWithErrorHandling origin f = fetchWithErrorHandling origin g) ∧
    (∀ r v, f 0 = .ok r → r.ok = true → r.json = .ok v →
      fetchWithErrorHandling origin f = .ok v) ∧
    (∀ r, f 0 = .ok r → r.ok = false →
      ∃ e, fetchWithErrorHandling origin f = .error e ∧
        (corsPattern (httpStatusError r.status r.bodyText) = false →
          strIncludes e.message (toString r.status) = true)) ∧
    (∀ e0, f 0 = .error e0 → ∃ e, fetchWithErrorHandling origin f = .error e) ∧
    (∀ r e0, f 0 = .ok r → r.ok = true → r.json = .error e0 →
      ∃ e, fetchWithErrorHandling origin f = .error e) := by
  refine ⟨fun hfg => ?_, fun r v hf hok hjson => ?_, fun r hf hok => ?_,
    fun e0 hf => ?_, fun r e0 hf hok hjson => ?_⟩
  · unfold fetchWithErrorHandling
    rw [hfg]
  · simp [fetchWithErrorHandling, hf, hok, hjson]
  · simp only [fetchWithErrorHandling, hf, hok, Bool.not_false, if_true]
    unfold fetchCatch
    by_cases hc : corsPattern (httpStatusError r.status r.bodyText) = true
    · refine ⟨corsError origin, ?_, ?_⟩
      · rw [if_pos hc]
      · intro hfalse
        rw [hc] at hfalse
        exact absurd hfalse (by simp)
    · refine ⟨httpStatusError r.status r.bodyText, ?_, fun _ => ?_⟩
      · rw [if_neg hc]
      · show strIncludes ("HTTP error! status: " ++ toString r.status ++ ", body: " ++
          r.bodyText.take 100) (toString r.status) = true
        have heq : "HTTP error! status: " ++ toString r.status ++ ", body: " ++
            r.bodyText.take 100 =
            "HTTP error! status: " ++ toString r.status ++ (", body: " ++ r.bodyText.take 100) :=
          String.append_assoc _ _ _
        rw [heq]
        exact strIncludes_sandwich _ _ _
  · simp only [fetchWithErrorHandling, hf]
    unfold fetchCatch
    by_cases hc : corsPattern e0 = true
    · exact ⟨corsError origin, by rw [if_pos hc]⟩
    · exact ⟨e0, by rw [if_neg hc]⟩
  · simp only [fetchWithErrorHandling, hf, hok, hjson, Bool.not_true]
    unfold fetchCatch
    by_cases hc : corsPattern e0 = true
    · exact ⟨corsError origin, by simp [hc]⟩
    · exact ⟨e0, by simp [hc]⟩

/-- C2 witness: at a concrete ok JSON response the helper returns the
parsed body. -/
theorem fetch_error_handling_witness :
    fetchWithErrorHandling "http://localhost:5173"
      (fun _ => .ok { status := 200, ok := true, bodyText := "", json := .ok (.num 1) }) =
      .ok (.num 1) :=
  (fetch_error_handling "http://localhost:5173"
      (fun _ => .ok { status := 200, ok := true, bodyText := "", json := .ok (.num 1) })
      (fun _ => .ok { status := 200, ok := true, bodyText := "", json := .ok (.num 1) })).2.1
    { status := 200, ok := true, bodyText := "", json := .ok (.num 1) } (.num 1) rfl rfl rfl

set_option maxRecDepth 8000 in
/-- C2 counterexample: a 500 response whose body text contains `CORS` is
rethrown as the `CORS_ERROR` message, which does not carry the HTTP
status; and an ok response with an unparsable body throws instead of
returning a parsed value. -/
theorem fetch_error_handling_counterexample :
    fetchWithErrorHandling "http://localhost:5173"
      (fun _ => .ok { status := 500, ok := false, bodyText := "CORS", json := .ok .undefined }) =
      .error (corsError "http://localhost:5173") ∧
    strIncludes (corsError "http://localhost:5173").message "500" = false ∧
    fetchWithErrorHandling "http://localhost:5173"
      (fun _ => .ok { status := 200, ok := true, bodyText := "not json",
                      json := .error { name := "SyntaxError", message := "Unexpected token" } }) =
      .error { name := "SyntaxError", message := "Unexpected token" } :=
  ⟨rfl, by decide, rfl⟩

/-- C4 (amended): the export formatter resolves the standard id through
`id`, `standard_id`, `standardId` (first truthy, default `'N/A'`) and the
score through `score`, `value`, `scores` (first non-null non-undefined,
default 0); the Firestore service resolves the creation timestamp by
trying `created_at` and `createdAt` *as Timestamps first* (toDate of
created_at, then toDate of createdAt, then the raw created_at, then the
raw createdAt) and the update timestamp by trying `modified_at`,
`updated_at`, `updatedAt` as Timestamps first and then their raw values
in the same order. -/
theorem field_lookup_fallback_orders (score : JVal) (data : List (String × JVal)) :
    resolveStandardId score =
      (([getField score "id", getField score "standard_id",
         getField score "standardId"].find? truthy).getD (.str "N/A")) ∧
    resolveScoreValue score =
      (([getField score "score", getField score "value",
         getField score "scores"].find? notUndefNull).getD (.num 0)) ∧
    resolveCreatedTs data =
      (([toDateOpt (lookupField data "created_at"), toDateOpt (lookupField data "createdAt"),
         lookupField data "created_at"].find? truthy).getD (lookupField data "createdAt")) ∧
    resolveUpdatedTs data =
      (([toDateOpt (lookupField data "modified_at"), toDateOpt (lookupField data "updated_at"),
         toDateOpt (lookupField data "updatedAt"), lookupField data "modified_at",
         lookupField data "updated_at"].find? truthy).getD (lookupField data "updatedAt")) := by
  refine ⟨?_, ?_, ?_, ?_⟩
  · by_cases h1 : truthy (getField score "id") <;>
      by_cases h2 : truthy (getField score "standard_id") <;>
      by_cases h3 : truthy (getField score "standardId") <;>
      simp [resolveStandardId, jor, h1, h2, h3, List.find?_cons]
  · by_cases h1 : notUndefNull (getField score "score") <;>
      by_cases h2 : notUndefNull (getField score "value") <;>
      by_cases h3 : notUndefNull (getField score "scores") <;>
      simp [resolveScoreValue, h1, h2, h3, List.find?_cons]
  · by_cases h1 : truthy (toDateOpt (lookupField data "created_at")) <;>
      by_cases h2 : truthy (toDateOpt (lookupField data "createdAt")) <;>
      by_cases h3 : truthy (lookupField data "created_at") <;>
      simp [resolveCreatedTs, jor, h1, h2, h3, List.find?_cons]
  · by_cases h1 : truthy (toDateOpt (lookupField data "modified_at")) <;>
      by_cases h2 : truthy (toDateOpt (lookupField data "updated_at")) <;>
      by_cases h3 : truthy (toDateOpt (lookupField data "updatedAt")) <;>
      by_cases h4 : truthy (lookupField data "modified_at") <;>
      by_cases h5 : truthy (lookupField data "updated_at") <;>
      simp [resolveUpdatedTs, jor, h1, h2, h3, h4, h5, List.find?_cons]

set_option maxRecDepth 8000 in
/-- C4 counterexample: on a document whose `created_at` is a (truthy)
date string and whose `createdAt` is a Firestore `Timestamp`, the code
resolves the creation timestamp from `createdAt` (the Timestamp branch
wins), not from the earlier-tried `created_at` as the claim's
"created_at then createdAt" order states. -/
theorem firestore_ts_order_counterexample :
    resolveCreatedTs [("created_at", .str "2020-01-01"), ("createdAt", .tstamp 7)] = .date 7 ∧
    claimCreatedResolve [("created_at", .str "2020-01-01"), ("createdAt", .tstamp 7)] =
      .str "2020-01-01" ∧
    (JVal.date 7 ≠ JVal.str "2020-01-01") :=
  ⟨rfl, rfl, fun h => JVal.noConfusion h⟩

/-- C8 (amended): every document of a snapshot is returned (same count,
each output arising from a raw document via `convertDoc`); the conversion
preserves the id and every data key other than the four normalized
timestamp keys; and `createdAt` (resp. `updatedAt`) is defined iff the
recognized-field resolution yields a *truthy* value — a recognized field
holding a falsy value such as `0` or `null` does not make the timestamp
defined.  Documents lacking all (truthy) timestamp fields are still
returned, with both timestamps `undefined`. -/
theorem firestore_document_fields (p : String → Int) (docs : List RawDoc) (raw : RawDoc) :
    (snapshotToDocuments p docs).length = docs.length ∧
    (∀ d ∈ snapshotToDocuments p docs, ∃ r ∈ docs, d = convertDoc p r) ∧
    (convertDoc p raw).id = raw.id ∧
    (∀ k, k ∉ (["created_at", "modified_at", "createdAt", "updatedAt"] : List String) →
      lookupField (convertDoc p raw).data k = lookupField raw.data k) ∧
    ((convertDoc p raw).createdAt ≠ .undefined ↔ truthy (resolveCreatedTs raw.data) = true) ∧
    ((convertDoc p raw).updatedAt ≠ .undefined ↔ truthy (resolveUpdatedTs raw.data) = true) := by
  refine ⟨?_, ?_, rfl, ?_, ?_, ?_⟩
  · simp only [snapshotToDocuments]
    split <;> simp [List.length_insertionSort]
  · intro d hd
    simp only [snapshotToDocuments] at hd
    split at hd
    · obtain ⟨r, hr, he⟩ := List.mem_map.mp ((List.mem_insertionSort snapRel).mp hd)
      exact ⟨r, hr, he.symm⟩
    · obtain ⟨r, hr, he⟩ := List.mem_map.mp hd
      exact ⟨r, hr, he.symm⟩
  · intro k hk
    simp only [List.mem_cons, List.not_mem_nil, or_false, not_or] at hk
    obtain ⟨hk1, hk2, hk3, hk4⟩ := hk
    simp only [convertDoc]
    rw [lookupField_append_right_nomatch]
    intro kv hkv
    simp only [List.mem_cons, List.not_mem_nil, or_false] at hkv
    rcases hkv with rfl | rfl | rfl | rfl
    · exact beq_eq_false_iff_ne.mpr (Ne.symm hk1)
    · exact beq_eq_false_iff_ne.mpr (Ne.symm hk2)
    · exact beq_eq_false_iff_ne.mpr (Ne.symm hk3)
    · exact beq_eq_false_iff_ne.mpr (Ne.symm hk4)
  · by_cases ht : truthy (resolveCreatedTs raw.data) <;>
      simp [convertDoc, ht, newDate_ne_undef p (resolveCreatedTs raw.data)]
  · by_cases ht : truthy (resolveUpdatedTs raw.data) <;>
      simp [convertDoc, ht, newDate_ne_undef p (resolveUpdatedTs raw.data)]

/-- C8 witness: on a concrete document the conversion keeps a
non-timestamp key unchanged, and a document with no timestamp fields is
still returned. -/
theorem firestore_document_fields_witness :
    lookupField (convertDoc (fun _ => 0)
        { id := "d1", data := [("student_reports", .arr [])] }).data "student_reports" =
      lookupField [(("student_reports" : String), JVal.arr [])] "student_reports" ∧
    (snapshotToDocuments (fun _ => 0)
        [{ id := "d1", data := [("student_reports", .arr [])] }]).length = 1 :=
  ⟨(firestore_document_fields (fun _ => 0) []
        { id := "d1", data := [("student_reports", .arr [])] }).2.2.2.1
      "student_reports" (by decide),
   (firestore_document_fields (fun _ => 0)
        [{ id := "d1", data := [("student_reports", .arr [])] }]
        { id := "d1", data := [] }).1⟩

set_option maxRecDepth 8000 in
/-- C8 counterexample: a raw document that *does* contain a recognised
creation field — `created_at: 0`, a valid epoch timestamp — still comes
out with `createdAt` undefined, because the resolution tests JS
truthiness and `0` is falsy; so "defined iff the raw document contained
a recognised field" fails in the only-if direction. -/
theorem firestore_created_iff_counterexample :
    (convertDoc (fun _ => 0) { id := "d1", data := [("created_at", .num 0)] }).createdAt =
      .undefined ∧
    lookupField [(("created_at" : String), JVal.num 0)] "created_at" = .num 0 ∧
    "created_at" ∈ [(("created_at" : String), JVal.num 0)].map Prod.fst :=
  ⟨rfl, rfl, by decide⟩

/-- C6: `snapshotToDocuments` and `getCollection` agree; the output is
always a permutation of the converted snapshot documents; it is sorted
by creation timestamp newest-first whenever every document has a
`createdAt`, and is the snapshot's original order otherwise. -/
theorem snapshot_sorted_newest_first (p : String → Int) (docs : List RawDoc) :
    getCollectionDocs p docs = snapshotToDocuments p docs ∧
    (snapshotToDocuments p docs).Perm (docs.map (convertDoc p)) ∧
    ((docs.map (convertDoc p)).all (fun d => truthy d.createdAt) = true →
      List.Sorted docLe (snapshotToDocuments p docs)) ∧
    ((docs.map (convertDoc p)).all (fun d => truthy d.createdAt) = false →
      snapshotToDocuments p docs = docs.map (convertDoc p)) := by
  refine ⟨rfl, ?_, fun h => ?_, fun h => ?_⟩
  · simp only [snapshotToDocuments]
    split
    · exact List.perm_insertionSort _ _
    · exact List.Perm.refl _
  · simp only [snapshotToDocuments]
    rw [if_pos h]
    rw [insertionSort_congr snapRel docLe _ (fun x hx y hy =>
      snapRel_iff_docLe x y (List.all_eq_true.mp h x hx) (List.all_eq_true.mp h y hy))]
    exact List.sorted_insertionSort docLe _
  · simp only [snapshotToDocuments]
    rw [if_neg (by simp [h])]

set_option maxRecDepth 8000 in
/-- C6 witness: a concrete two-document snapshot with timestamps out of
order comes back sorted newest-first. -/
theorem snapshot_sorted_newest_first_witness :
    List.Sorted docLe (snapshotToDocuments (fun _ => 0)
      [{ id := "a", data := [("created_at", .tstamp 5)] },
       { id := "b", data := [("created_at", .tstamp 9)] }]) :=
  (snapshot_sorted_newest_first (fun _ => 0)
      [{ id := "a", data := [("created_at", .tstamp 5)] },
       { id := "b", data := [("created_at", .tstamp 9)] }]).2.2.1 (by decide)

theorem coa_find_max_of_sorted (p : String → Int) :
    ∀ (l : List FirestoreDocument), List.Sorted (coaRel p) l →
    ∀ x, l.find? (fun d => coaHasStdData d) = some x →
    ∀ y ∈ l, coaHasStdData y = true → coaGetDate p y ≤ coaGetDate p x := by
  intro l
  induction l with
  | nil =>
    intro _ x hx
    simp at hx
  | cons a t ih =>
    intro hs x hx y hy hq
    by_cases ha : coaHasStdData a = true
    · have hxa : x = a := by
        rw [List.find?_cons_of_pos _ ha] at hx
        exact (Option.some.injEq _ _ ▸ hx).symm
      subst hxa
      rcases List.mem_cons.mp hy with rfl | hyt
      · exact le_refl _
      · have hr := List.rel_of_sorted_cons hs y hyt
        unfold coaRel at hr
        omega
    · have hxt : t.find? (fun d => coaHasStdData d) = some x := by
        rw [List.find?_cons_of_neg _ (by simpa using ha)] at hx
        exact hx
      rcases List.mem_cons.mp hy with rfl | hyt
      · exact absurd hq ha
      · exact ih hs.of_cons x hxt y hyt hq

theorem coa_headI_max_of_sorted (p : String → Int) (l : List FirestoreDocument)
    (hs : List.Sorted (coaRel p) l) (hne : l ≠ []) :
    ∀ y ∈ l, coaGetDate p y ≤ coaGetDate p l.headI := by
  match l, hne with
  | a :: t, _ =>
    intro y hy
    simp only [List.headI]
    rcases List.mem_cons.mp hy with rfl | hyt
    · exact le_refl _
    · have hr := List.rel_of_sorted_cons hs y hyt
      unfold coaRel at hr
      omega

theorem coaSortedDocs_ne_nil (p : String → Int) (documents : List FirestoreDocument)
    (h : documents ≠ []) : coaSortedDocs p documents ≠ [] := by
  intro hnil
  have := List.length_insertionSort (coaRel p) documents
  rw [show List.insertionSort (coaRel p) documents = coaSortedDocs p documents from rfl,
    hnil] at this
  exact h (List.eq_nil_of_length_eq_zero this.symm)

/-- C5 (amended): the COA export selects the newest report (its `getDate`
dominates every input document); the fallback search runs only when the
newest report's `student_reports` is a *non-empty* array none of whose
entries has a non-empty `standard_scores` array, and then the export
switches to the newest input document that does have such data, keeping
the newest report when no document has any. -/
theorem coa_report_selection (p : String → Int) (documents : List FirestoreDocument)
    (h : documents ≠ []) :
    (∀ d ∈ documents, coaGetDate p d ≤ coaGetDate p (coaLatestDoc p documents)) ∧
    (coaFallbackCond (coaLatestDoc p documents) = false →
      coaDocumentToUse p documents = coaLatestDoc p documents) ∧
    (coaFallbackCond (coaLatestDoc p documents) = true →
      ((∀ d ∈ documents, coaHasStdData d = false) →
        coaDocumentToUse p documents = coaLatestDoc p documents) ∧
      (∀ d0 ∈ documents, coaHasStdData d0 = true →
        coaHasStdData (coaDocumentToUse p documents) = true ∧
        ∀ d ∈ documents, coaHasStdData d = true →
          coaGetDate p d ≤ coaGetDate p (coaDocumentToUse p documents))) := by
  have hsort : List.Sorted (coaRel p) (coaSortedDocs p documents) :=
    List.sorted_insertionSort (coaRel p) documents
  have hne : coaSortedDocs p documents ≠ [] := coaSortedDocs_ne_nil p documents h
  refine ⟨fun d hd => ?_, fun hf => ?_, fun hf => ⟨fun hnone => ?_, fun d0 hd0 hq0 => ?_⟩⟩
  · exact coa_headI_max_of_sorted p _ hsort hne d
      ((List.mem_insertionSort (coaRel p)).mpr hd)
  · simp only [coaDocumentToUse]
    rw [if_neg (by simp [hf])]
  · have hfind : (coaSortedDocs p documents).find? (fun d => coaHasStdData d) = none := by
      rw [List.find?_eq_none]
      intro x hx
      simp [hnone x ((List.mem_insertionSort (coaRel p)).mp hx)]
    simp only [coaDocumentToUse]
    rw [if_pos hf, hfind]
    rfl
  · have hsome : ((coaSortedDocs p documents).find? (fun d => coaHasStdData d)).isSome = true :=
      List.find?_isSome.mpr ⟨d0, (List.mem_insertionSort (coaRel p)).mpr hd0, hq0⟩
    obtain ⟨x, hx⟩ := Option.isSome_iff_exists.mp hsome
    have hsel : coaDocumentToUse p documents = x := by
      simp only [coaDocumentToUse]
      rw [if_pos hf, hx]
      rfl
    rw [hsel]
    refine ⟨List.find?_some hx, fun d hd hq => ?_⟩
    exact coa_find_max_of_sorted p _ hsort x hx d
      ((List.mem_insertionSort (coaRel p)).mpr hd) hq

set_option maxRecDepth 8000 in
/-- C5 witness: with a newest report whose only student entry has an
empty `standard_scores` array and an older report with real data, the
export switches to the older report (the newest document having data). -/
theorem coa_report_selection_witness :
    coaHasStdData (coaDocumentToUse (fun _ => 0)
      [{ id := "A",
         data := [("student_reports", .arr [.obj [("standard_scores", .arr [])]])],
         createdAt := .date 10, updatedAt := .undefined },
       { id := "B",
         data := [("student_reports",
           .arr [.obj [("standard_scores", .arr [.obj [("id", .str "S1"), ("score", .num 3)]])]])],
         createdAt := .date 5, updatedAt := .undefined }]) = true :=
  (((coa_report_selection (fun _ => 0)
      [{ id := "A",
         data := [("student_reports", .arr [.obj [("standard_scores", .arr [])]])],
         createdAt := .date 10, updatedAt := .undefined },
       { id := "B",
         data := [("student_reports",
           .arr [.obj [("standard_scores", .arr [.obj [("id", .str "S1"), ("score", .num 3)]])]])],
         createdAt := .date 5, updatedAt := .undefined }]
      (List.cons_ne_nil _ _)).2.2 (by decide)).2
    { id := "B",
      data := [("student_reports",
        .arr [.obj [("standard_scores", .arr [.obj [("id", .str "S1"), ("score", .num 3)]])]])],
      createdAt := .date 5, updatedAt := .undefined }
    (by simp) (by decide)).1

set_option maxRecDepth 8000 in
/-- C5 counterexample: when the newest report's `student_reports` is the
*empty* array — so every entry vacuously has an empty or missing
`standard_scores` array — the export does **not** search for an older
document with data: the guard requires `student_reports.length > 0`, so
the newest report is kept even though an older document with real
standard-score data exists. -/
theorem coa_report_selection_counterexample :
    (coaDocumentToUse (fun _ => 0)
      [{ id := "new", data := [("student_reports", .arr [])],
         createdAt := .date 10, updatedAt := .undefined },
       { id := "old",
         data := [("student_reports",
           .arr [.obj [("standard_scores", .arr [.obj [("id", .str "S1"), ("score", .num 3)]])]])],
         createdAt := .date 5, updatedAt := .undefined }]).id = "new" ∧
    (coaLatestDoc (fun _ => 0)
      [{ id := "new", data := [("student_reports", .arr [])],
         createdAt := .date 10, updatedAt := .undefined },
       { id := "old",
         data := [("student_reports",
           .arr [.obj [("standard_scores", .arr [.obj [("id", .str "S1"), ("score", .num 3)]])]])],
         createdAt := .date 5, updatedAt := .undefined }]).id = "new" ∧
    lookupField [(("student_reports" : String), JVal.arr [])] "student_reports" = .arr [] ∧
    coaHasStdData
      { id := "old",
        data := [("student_reports",
          .arr [.obj [("standard_scores", .arr [.obj [("id", .str "S1"), ("score", .num 3)]])]])],
        createdAt := .date 5, updatedAt := .undefined } = true ∧
    ("new" : String) ≠ "old" :=
  ⟨rfl, rfl, rfl, by decide, by decide⟩


theorem isEmpty_map {α β : Type} (f : α → β) (l : List α) : (l.map f).isEmpty = l.isEmpty := by
  cases l <;> rfl

theorem coaStudentSheet_sections (hasLogo : Bool) (stdMap : List (String × String))
    (rid : String) (sr : JVal) :
    ∃ j k : Nat, j < k ∧
      (coaStudentSheet hasLogo stdMap rid sr).rows[j]? =
        some [JVal.str "Student Summary"] ∧
      (coaStudentSheet hasLogo stdMap rid sr).rows[k]? =
        some [JVal.str "Standard Scores"] := by
  cases hasLogo
  · exact ⟨0, 13, by omega, rfl, rfl⟩
  · exact ⟨1, 14, by omega, rfl, rfl⟩

theorem coa_sheets_eq (p : String → Int) (stdMap : List (String × String)) (hasLogo : Bool)
    (documents : List FirestoreDocument) (h : documents ≠ []) :
    (exportCOAReportsToExcel p stdMap hasLogo documents).sheets =
      coaSummarySheet p (coaDocumentToUse p documents) ::
      ((coaStudentReports (coaDocumentToUse p documents)).map
        (coaStudentSheet hasLogo stdMap ((coaDocumentToUse p documents).id.take 8)) ++
       (if isNonEmptyArr (lookupField (coaDocumentToUse p documents).data "standard_scores") then
          [{ name := .str "Aggregate Standards",
             rows := (if hasLogo then [[]] else []) ++
               [[.str "Report ID", .str "Standard ID", .str "Standard Description",
                 .str "Score"]] ++
               coaAggregateRows stdMap ((coaDocumentToUse p documents).id.take 8)
                 (coaDocumentToUse p documents).data : Sheet }]
        else [])) := by
  have hE : documents.isEmpty = false := by
    cases hE2 : documents.isEmpty
    · rfl
    · exact absurd (List.isEmpty_iff.mp hE2) h
  have hcond : (!(coaAggregateRows stdMap ((coaDocumentToUse p documents).id.take 8)
      (coaDocumentToUse p documents).data).isEmpty) =
      isNonEmptyArr (lookupField (coaDocumentToUse p documents).data "standard_scores") := by
    cases hv2 : lookupField (coaDocumentToUse p documents).data "standard_scores" <;>
      simp [coaAggregateRows, hv2, isNonEmptyArr, isEmpty_map]
  unfold exportCOAReportsToExcel
  rw [if_neg (by simp [hE])]
  dsimp only
  rw [hcond]
  cases hv : lookupField (coaDocumentToUse p documents).data "student_reports" <;>
    simp [coaStudentReports, hv]

/-- C3: for a non-empty documents array the COA workbook consists of the
`Summary` sheet first, then one worksheet per entry of the selected
report's `student_reports` array — each named by the resolved student
name, truncated to 28 characters plus `...` when it exceeds 31
characters — then the `Aggregate Standards` sheet exactly when the
report's top-level `standard_scores` is a non-empty array; and every
student worksheet holds a `Student Summary` section followed by a
`Standard Scores` section. -/
theorem coa_workbook_structure (p : String → Int) (stdMap : List (String × String))
    (hasLogo : Bool) (documents : List FirestoreDocument) (h : documents ≠ []) :
    (exportCOAReportsToExcel p stdMap hasLogo documents).sheets.map Sheet.name =
      .str "Summary" ::
        ((coaStudentReports (coaDocumentToUse p documents)).map (fun sr =>
          match jor (getField sr "student_name") (.str "N/A") with
          | .str s => if s.length > 31 then .str (s.take 28 ++ "...") else .str s
          | v => v) ++
         (if isNonEmptyArr (lookupField (coaDocumentToUse p documents).data "standard_scores")
          then [.str "Aggregate Standards"] else [])) ∧
    (∀ i : Nat, i < (coaStudentReports (coaDocumentToUse p documents)).length →
      ∃ sh, (exportCOAReportsToExcel p stdMap hasLogo documents).sheets[i + 1]? = some sh ∧
        ∃ j k : Nat, j < k ∧ sh.rows[j]? = some [JVal.str "Student Summary"] ∧
          sh.rows[k]? = some [JVal.str "Standard Scores"]) := by
  have hs := coa_sheets_eq p stdMap hasLogo documents h
  constructor
  · rw [hs]
    simp only [List.map_cons, List.map_append, List.map_map]
    refine congrArg₂ _ rfl (congrArg₂ _ ?_ ?_)
    · exact List.map_congr_left (fun sr _ => rfl)
    · cases hc : isNonEmptyArr (lookupField (coaDocumentToUse p documents).data
        "standard_scores") <;> simp [hc]
  · intro i hi
    rw [hs]
    rw [List.getElem?_cons_succ,
      List.getElem?_append_left (by simpa using hi),
      List.getElem?_map,
      List.getElem?_eq_getElem hi]
    exact ⟨_, rfl, coaStudentSheet_sections hasLogo stdMap _ _⟩

set_option maxRecDepth 8000 in
/-- C3 witness: a concrete report with one student (`Alice`) and a
non-empty top-level `standard_scores` array yields exactly the sheets
`Summary`, `Alice`, `Aggregate Standards`, in that order. -/
theorem coa_workbook_structure_witness :
    (exportCOAReportsToExcel (fun _ => 0) [] true
      [{ id := "r1",
         data := [("student_reports",
           .arr [.obj [("student_name", .str "Alice"),
                       ("standard_scores", .arr [.obj [("id", .str "S1"), ("score", .num 3)]])]]),
                  ("standard_scores", .arr [.obj [("id", .str "S1"), ("score", .num 4)]])],
         createdAt := .date 1, updatedAt := .undefined }]).sheets.map Sheet.name =
      [.str "Summary", .str "Alice", .str "Aggregate Standards"] :=
  ((coa_workbook_structure (fun _ => 0) [] true
      [{ id := "r1",
         data := [("student_reports",
           .arr [.obj [("student_name", .str "Alice"),
                       ("standard_scores", .arr [.obj [("id", .str "S1"), ("score", .num 3)]])]]),
                  ("standard_scores", .arr [.obj [("id", .str "S1"), ("score", .num 4)]])],
         createdAt := .date 1, updatedAt := .undefined }]
      (List.cons_ne_nil _ _)).1).trans (by rfl)
